import Mathlib

/-!
Shallow embedding of `src/adhoc/SimulationNotebook/DGPSimulation.py`:
a bow-tie random-graph generator (node-type sampling, constrained edge
construction, rejection-sampling edge loop, reciprocity statistics).

Modelling choices:
* Python floats are embedded as exact rationals (ℚ).
* The global `random` module is an explicit oracle `RandSource` plus a
  time counter `t`; every random call consumes one tick.  `random.random()`
  values are normalized into [0,1) with `toUnit`; `random.sample(nodes, 2)`
  index draws are normalized so the two chosen nodes are distinct, as the
  Python call guarantees.
* Unbounded `while` loops take fuel and return `none` on exhaustion.
* `raise TypeError` in `Edge.__init__` becomes `Except ConstraintViolation`.
-/

/-- The four node types of the bow-tie model (`class NodeType(Enum)`). -/
inductive NodeType
| GSCC
| GOUT
| GIN
| DC
deriving DecidableEq, Repr

/-- `NodeSampler.samplingrate`: the fixed categorical table, in the
dict's (insertion) iteration order. -/
def NodeSampler.samplingrate : List (NodeType × ℚ) :=
[(NodeType.GSCC, 78/100), (NodeType.GOUT, 12/100),
 (NodeType.GIN, 8/100), (NodeType.DC, 2/100)]

/-- The `for k in NodeSampler.samplingrate` loop of `sampleNode`:
accumulate `rtotal` and return the first type whose running total
is ≥ `rvar`; falling off the end of the loop returns `None`. -/
def NodeSampler.scan (rvar rtotal : ℚ) : List (NodeType × ℚ) → Option NodeType
| [] => none
| (k, w) :: rest =>
  if rtotal + w ≥ rvar then some k else NodeSampler.scan rvar (rtotal + w) rest

/-- `NodeSampler.sampleNode`, with the uniform draw `rvar` made explicit. -/
def NodeSampler.sampleNode (rvar : ℚ) : Option NodeType :=
NodeSampler.scan rvar 0 NodeSampler.samplingrate

/-- A node: stable name plus type (`class Node`). -/
structure Node where
  Name : String
  type : NodeType
deriving DecidableEq, Repr

/-- Normalize an arbitrary rational of the oracle into [0,1), modelling
that `random.random()` only ever produces values in [0,1). -/
def toUnit (q : ℚ) : ℚ := q - ⌊q⌋

/-- `Node.__init__`: the type comes from `NodeSampler.sampleNode()` on a
fresh uniform draw.  For a draw in [0,1) the sampler always returns `some`
(see `sampleNode_mem_unit_isSome`), so the `getD` default is never taken. -/
def Node.init (name : String) (r : ℚ) : Node :=
{ Name := name, type := (NodeSampler.sampleNode (toUnit r)).getD NodeType.DC }

/-- The two `TypeError` reasons `Edge.__init__` can raise:
"Direction constraint" and "Disconnected Component constraint". -/
inductive ConstraintViolation
| direction
| disconnectedComponent
deriving DecidableEq, Repr

/-- An accepted edge (`class Edge`), as stored after a successful
construction. -/
structure Edge where
  Source : Node
  Dest : Node
  Reciproc : Bool
deriving DecidableEq, Repr

/-- `Edge.__init__`: fails on `Source.type == GOUT or Dest.type == GIN`
(direction) or on an edge crossing the DC boundary; otherwise stores the
endpoints and sets `Reciproc = (both endpoints GSCC)`. -/
def Edge.init (Source Dest : Node) : Except ConstraintViolation Edge :=
if Source.type = NodeType.GOUT ∨ Dest.type = NodeType.GIN then
  Except.error ConstraintViolation.direction
else if (Source.type = NodeType.DC ∧ ¬ Dest.type = NodeType.DC)
    ∨ (Dest.type = NodeType.DC ∧ ¬ Source.type = NodeType.DC) then
  Except.error ConstraintViolation.disconnectedComponent
else
  Except.ok
    { Source := Source, Dest := Dest,
      Reciproc :=
        if Source.type = NodeType.GSCC ∧ Dest.type = NodeType.GSCC
        then true else false }

/-- `Edge.getKey`: the identity key `"{source}->{dest}"`. -/
def Edge.getKey (e : Edge) : String :=
e.Source.Name ++ "->" ++ e.Dest.Name

/-- `Edge.constructReciproc`: construct `Edge(self.Dest, self.Source)`. -/
def Edge.constructReciproc (e : Edge) : Except ConstraintViolation Edge :=
Edge.init e.Dest e.Source

/-- The global `random` module, as an oracle indexed by a time counter:
`real t` backs the `t`-th `random.random()` draw, `pair t` backs a
`random.sample(nodes, 2)` draw, `pick t` backs a `random.sample(pool, 1)`
draw.  Every random call consumes one tick. -/
structure RandSource where
  real : Nat → ℚ
  pair : Nat → Nat × Nat
  pick : Nat → Nat

/-- Python's `int()` conversion on a rational: truncation toward zero. -/
def pyInt (q : ℚ) : ℤ := if 0 ≤ q then ⌊q⌋ else ⌈q⌉

/-- Default used by out-of-range `getD` indexing; every index the model
produces is in range whenever the list is as long as the source
guarantees, so this value is never read on those paths. -/
def defaultNode : Node := { Name := "", type := NodeType.DC }

/-- Default edge for out-of-range `getD` indexing; never read when the
reciprocal-candidate pool is nonempty, which the loop guard ensures. -/
def defaultEdge : Edge :=
{ Source := defaultNode, Dest := defaultNode, Reciproc := false }

/-- `random.sample(nodes, 2)`: two distinct nodes, order significant.
The oracle's indices are normalized so both are in range and distinct;
with fewer than two nodes Python raises `ValueError`, modelled as `none`. -/
def sample2 (rs : RandSource) (nodes : List Node) (t : Nat) :
    Option (Node × Node) :=
if 2 ≤ nodes.length then
  some
    (nodes.getD ((rs.pair t).1 % nodes.length) defaultNode,
     nodes.getD
       (if (rs.pair t).1 % nodes.length ≤ (rs.pair t).2 % (nodes.length - 1)
        then (rs.pair t).2 % (nodes.length - 1) + 1
        else (rs.pair t).2 % (nodes.length - 1)) defaultNode)
else none

/-- The state of `class EdgeSampler`: its `__init__` fields. -/
structure EdgeSampler where
  sampled_nodes : List Node
  num_edges : ℤ
  reciprocity : ℚ
  edges : List Edge
  verbose : Bool
deriving DecidableEq, Repr

/-- `EdgeSampler.__init__`: sample `node_count` nodes named by their
index, compute `num_edges = int(connectivity * node_count *
(node_count - 1))`, start with an empty stored edge list.  Returns the
new state together with the advanced time counter. -/
def EdgeSampler.init (node_count : Nat) (connectivity reciprocity : ℚ)
    (rs : RandSource) (t : Nat) (verbose : Bool := false) :
    EdgeSampler × Nat :=
({ sampled_nodes :=
     (List.range node_count).map (fun x => Node.init (toString x) (rs.real (t + x))),
   num_edges := pyInt (connectivity * node_count * ((node_count : ℚ) - 1)),
   reciprocity := reciprocity,
   edges := [],
   verbose := verbose }, t + node_count)

/-- `EdgeSampler.sampleEdge`: rejection sampling — draw two distinct
nodes and retry on a `ConstraintViolation` until an edge is built.  The
unbounded `while` takes fuel; `none` is fuel exhaustion (or a failed
node draw). -/
def EdgeSampler.sampleEdge (rs : RandSource) (nodes : List Node) :
    Nat → Nat → Option (Edge × Nat)
| 0, _ => none
| ifuel + 1, t =>
  match sample2 rs nodes t with
  | none => none
  | some (a, b) =>
    match Edge.init a b with
    | Except.ok e => some (e, t + 1)
    | Except.error _ => EdgeSampler.sampleEdge rs nodes ifuel (t + 1)

/-- One candidate edge of the loop body: the first draw decides between
the fresh-sample path (`random.random() > self.reciprocity` or an empty
pool) and the reciprocal path, which picks a pool edge uniformly and
calls `constructReciproc` on it.  A failing reciprocal construction (an
uncaught `TypeError`) yields `none`. -/
def EdgeSampler.candidate (rs : RandSource) (ifuel : Nat) (st : EdgeSampler)
    (reciproc : List Edge) (t : Nat) : Option (Edge × Nat) :=
if toUnit (rs.real t) > st.reciprocity ∨ reciproc.length = 0 then
  EdgeSampler.sampleEdge rs st.sampled_nodes ifuel (t + 1)
else
  match (reciproc.getD (rs.pick (t + 1) % reciproc.length)
      defaultEdge).constructReciproc with
  | Except.ok e => some (e, t + 2)
  | Except.error _ => none

/-- The `while num_edge < self.num_edges` loop of
`EdgeSampler.sampleEdges`, with the loop locals explicit: `edges` is the
local seen-key set, `reciproc` the reciprocal-candidate pool, `num_edge`
the accepted counter.  Fuel exhaustion yields `none`. -/
def EdgeSampler.sampleEdgesLoop (rs : RandSource) (ifuel : Nat) :
    Nat → EdgeSampler → List String → List Edge → Nat → Nat →
      Option (EdgeSampler × Nat)
| 0, _, _, _, _, _ => none
| fuel + 1, st, edges, reciproc, num_edge, t =>
  if (num_edge : ℤ) < st.num_edges then
    match EdgeSampler.candidate rs ifuel st reciproc t with
    | none => none
    | some (edge, t2) =>
      if edge.getKey ∈ edges then
        EdgeSampler.sampleEdgesLoop rs ifuel fuel st edges reciproc num_edge t2
      else
        EdgeSampler.sampleEdgesLoop rs ifuel fuel
          { st with edges := st.edges ++ [edge] }
          (edge.getKey :: edges)
          (if edge.Reciproc then reciproc ++ [edge] else reciproc)
          (num_edge + 1) t2
  else some (st, t)

/-- `EdgeSampler.sampleEdges`: starts the loop with a fresh local
seen-key set, a fresh reciprocal pool and a zero counter, while the
stored `self.edges` list persists in `st`; the value Python returns is
the `.edges` field of the resulting state. -/
def EdgeSampler.sampleEdges (rs : RandSource) (ifuel fuel : Nat)
    (st : EdgeSampler) (t : Nat) : Option (EdgeSampler × Nat) :=
EdgeSampler.sampleEdgesLoop rs ifuel fuel st [] [] 0 t

/-- `InterstingStats.getReciprocityRate` (sic): build the set of distinct
edge keys, count the samples whose reverse key is in that set, and
divide; the division by `len(keySet)` raises `ZeroDivisionError` when
the key set is empty, modelled as `none`. -/
def InterstingStats.getReciprocityRate (samples : List Edge) : Option ℚ :=
  let keySet : Finset String := samples.foldl (fun s x => insert x.getKey s) ∅
  let reciprocalEdge : Nat :=
    List.countP (fun x => decide ((x.Dest.Name ++ "->" ++ x.Source.Name) ∈ keySet))
      samples
  if keySet.card = 0 then none
  else some ((reciprocalEdge : ℚ) * 100 / (keySet.card : ℚ))

/-- Modelled from the spec: the reciprocity-rate formula as §4.4 states
it — `K` the set of distinct edge keys, the rate the number of edges
whose reverse key lies in `K`, divided by `|K|`, times 100. -/
def specReciprocityRate (samples : List Edge) : ℚ :=
  let K : Finset String := (samples.map Edge.getKey).toFinset
  (((samples.filter
      (fun x => decide ((x.Dest.Name ++ "->" ++ x.Source.Name) ∈ K))).length : ℚ)
    / (K.card : ℚ)) * 100

/-- A deterministic oracle for the two-GSCC-node scenarios: every
`random.random()` draw is 1/2, the `t`-th pair draw selects node
`(t / 2) mod 2` as the source. -/
def rsW : RandSource :=
{ real := fun _ => 1/2, pair := fun t => (t / 2, 0), pick := fun _ => 0 }

/-- A two-node sampler state whose nodes are both `GSCC`, with
`num_edges = 2` and `reciprocity = 0`, as `__init__` would produce it
for `node_count = 2`, `connectivity = 1` under draws that type every
node `GSCC`. -/
def stW : EdgeSampler :=
{ sampled_nodes := [⟨"0", NodeType.GSCC⟩, ⟨"1", NodeType.GSCC⟩],
  num_edges := 2, reciprocity := 0, edges := [], verbose := false }

/-- The edge `0 -> 1` between the two `GSCC` nodes of `stW`. -/
def e01 : Edge :=
{ Source := ⟨"0", NodeType.GSCC⟩, Dest := ⟨"1", NodeType.GSCC⟩, Reciproc := true }

/-- The edge `1 -> 0` between the two `GSCC` nodes of `stW`. -/
def e10 : Edge :=
{ Source := ⟨"1", NodeType.GSCC⟩, Dest := ⟨"0", NodeType.GSCC⟩, Reciproc := true }

/-- `stW` after one completed `sampleEdges` call under `rsW`. -/
def st1val : EdgeSampler := { stW with edges := [e01, e10] }

/-- `stW` after two completed `sampleEdges` calls under `rsW`: the local
seen-key set restarts empty, so the same two edges are appended again. -/
def st2val : EdgeSampler := { stW with edges := [e01, e10, e01, e10] }

/-- A deterministic oracle for the `nodeCount = 10` scenario: every
`random.random()` draw is 1/2 (typing every node `GSCC` and always
taking the fresh-sample path), and the pair draws enumerate the ordered
pairs of distinct indices in lexicographic order. -/
def rsX : RandSource :=
{ real := fun _ => 1/2,
  pair := fun t => (((t - 11) / 2) / 9, ((t - 11) / 2) % 9),
  pick := fun _ => 0 }

/-- `toUnit` always lands in [0,1). -/
theorem toUnit_mem_unit (q : ℚ) : 0 ≤ toUnit q ∧ toUnit q < 1 := by
  have h : toUnit q = Int.fract q := rfl
  exact ⟨h ▸ Int.fract_nonneg q, h ▸ Int.fract_lt_one q⟩

/-- On a normalized draw the node sampler always answers. -/
theorem sampleNode_mem_unit_isSome (q : ℚ) :
    (NodeSampler.sampleNode (toUnit q)).isSome := by
  obtain ⟨h0, h1⟩ := toUnit_mem_unit q
  simp only [NodeSampler.sampleNode, NodeSampler.samplingrate, NodeSampler.scan]
  split_ifs with ha hb hc hd
  · rfl
  · rfl
  · rfl
  · rfl
  · exfalso
    apply hd
    have : (0 : ℚ) + 78/100 + 12/100 + 8/100 + 2/100 = 1 := by norm_num
    linarith

/-- Everything `Edge.__init__` guarantees about a successfully
constructed edge: endpoints are stored as given and the `Reciproc`
flag is set exactly when both endpoints are `GSCC`. -/
theorem Edge.init_ok_spec (s d : Node) (e : Edge)
    (h : Edge.init s d = Except.ok e) :
    e.Source = s ∧ e.Dest = d ∧
      (e.Reciproc = true ↔ (s.type = NodeType.GSCC ∧ d.type = NodeType.GSCC)) := by
  unfold Edge.init at h
  split_ifs at h with h1 h2 h3 <;> simp_all <;> [subst h; subst h] <;> simp_all

/-- Constructing an edge between two `GSCC` nodes always succeeds. -/
theorem Edge.init_gscc_ok (s d : Node)
    (hs : s.type = NodeType.GSCC) (hd : d.type = NodeType.GSCC) :
    ∃ e, Edge.init s d = Except.ok e := by
  unfold Edge.init
  split_ifs with h1 h2 <;> simp_all

/-- Claim C2: for every uniform draw `r` in [0,1) the cumulative-weight
scan returns some `NodeType` (the weights sum to 1), and whenever `r`
exceeds the first three cumulative weights the result is the last type
in iteration order, `DC`. -/
theorem C2_sampleNode_total (r : ℚ) (h0 : 0 ≤ r) (h1 : r < 1) :
    ∃ k, NodeSampler.sampleNode r = some k ∧ (98/100 < r → k = NodeType.DC) := by
  simp only [NodeSampler.sampleNode, NodeSampler.samplingrate, NodeSampler.scan]
  split_ifs with ha hb hc hd
  · exact ⟨NodeType.GSCC, rfl, fun hr => absurd ha (by linarith)⟩
  · exact ⟨NodeType.GOUT, rfl, fun hr => absurd hb (by linarith)⟩
  · exact ⟨NodeType.GIN, rfl, fun hr => absurd hc (by linarith)⟩
  · exact ⟨NodeType.DC, rfl, fun _ => rfl⟩
  · exact absurd (by linarith : (0:ℚ) + 78/100 + 12/100 + 8/100 + 2/100 ≥ r) hd

theorem C2_sampleNode_total_witness :
    ∃ k, NodeSampler.sampleNode (99/100) = some k ∧
      (98/100 < (99:ℚ)/100 → k = NodeType.DC) :=
  C2_sampleNode_total (99/100) (by norm_num) (by norm_num)

/-- Claim C3: edge construction fails with a constraint violation iff at
least one validity rule is violated (source is `GOUT`, destination is
`GIN`, or exactly one endpoint is `DC`); otherwise it succeeds and the
resulting edge has the given endpoints. -/
theorem C3_edge_init_raises_iff (s d : Node) :
    ((∃ v, Edge.init s d = Except.error v) ↔
      (s.type = NodeType.GOUT ∨ d.type = NodeType.GIN ∨
        ¬ (s.type = NodeType.DC ↔ d.type = NodeType.DC)))
    ∧ (¬ (s.type = NodeType.GOUT ∨ d.type = NodeType.GIN ∨
        ¬ (s.type = NodeType.DC ↔ d.type = NodeType.DC)) →
      ∃ e, Edge.init s d = Except.ok e ∧ e.Source = s ∧ e.Dest = d) := by
  unfold Edge.init
  split_ifs with h1 h2 <;> simp_all <;> tauto

theorem C3_edge_init_raises_iff_witness :
    ((∃ v, Edge.init ⟨"a", NodeType.GSCC⟩ ⟨"b", NodeType.DC⟩ = Except.error v) ↔
      ((⟨"a", NodeType.GSCC⟩ : Node).type = NodeType.GOUT ∨
        (⟨"b", NodeType.DC⟩ : Node).type = NodeType.GIN ∨
        ¬ ((⟨"a", NodeType.GSCC⟩ : Node).type = NodeType.DC ↔
           (⟨"b", NodeType.DC⟩ : Node).type = NodeType.DC)))
    ∧ (¬ ((⟨"a", NodeType.GSCC⟩ : Node).type = NodeType.GOUT ∨
        (⟨"b", NodeType.DC⟩ : Node).type = NodeType.GIN ∨
        ¬ ((⟨"a", NodeType.GSCC⟩ : Node).type = NodeType.DC ↔
           (⟨"b", NodeType.DC⟩ : Node).type = NodeType.DC)) →
      ∃ e, Edge.init ⟨"a", NodeType.GSCC⟩ ⟨"b", NodeType.DC⟩ = Except.ok e ∧
        e.Source = ⟨"a", NodeType.GSCC⟩ ∧ e.Dest = ⟨"b", NodeType.DC⟩) :=
  C3_edge_init_raises_iff ⟨"a", NodeType.GSCC⟩ ⟨"b", NodeType.DC⟩

/-- Claim C4: a successfully constructed edge has `Reciproc = true` iff
both its endpoints have type `GSCC`. -/
theorem C4_reciproc_iff_gscc (s d : Node) (e : Edge)
    (h : Edge.init s d = Except.ok e) :
    (e.Reciproc = true ↔ (s.type = NodeType.GSCC ∧ d.type = NodeType.GSCC)) :=
  (Edge.init_ok_spec s d e h).2.2

theorem C4_reciproc_iff_gscc_witness :
    (Edge.mk ⟨"0", NodeType.GSCC⟩ ⟨"1", NodeType.GSCC⟩ true).Reciproc = true ↔
      ((⟨"0", NodeType.GSCC⟩ : Node).type = NodeType.GSCC ∧
       (⟨"1", NodeType.GSCC⟩ : Node).type = NodeType.GSCC) :=
  C4_reciproc_iff_gscc ⟨"0", NodeType.GSCC⟩ ⟨"1", NodeType.GSCC⟩
    (Edge.mk ⟨"0", NodeType.GSCC⟩ ⟨"1", NodeType.GSCC⟩ true) rfl

/-- Claim C5: if a successfully constructed edge is reciprocity-eligible
(`Reciproc = true`, i.e. both endpoints `GSCC`), then constructing its
reciprocal edge always succeeds. -/
theorem C5_constructReciproc_ok (s d : Node) (e : Edge)
    (h : Edge.init s d = Except.ok e) (hrec : e.Reciproc = true) :
    ∃ e2, e.constructReciproc = Except.ok e2 := by
  obtain ⟨hS, hD, hiff⟩ := Edge.init_ok_spec s d e h
  obtain ⟨hs, hd⟩ := hiff.mp hrec
  unfold Edge.constructReciproc
  exact Edge.init_gscc_ok e.Dest e.Source (by rw [hD]; exact hd) (by rw [hS]; exact hs)

theorem C5_constructReciproc_ok_witness :
    ∃ e2, (Edge.mk ⟨"0", NodeType.GSCC⟩ ⟨"1", NodeType.GSCC⟩ true).constructReciproc
      = Except.ok e2 :=
  C5_constructReciproc_ok ⟨"0", NodeType.GSCC⟩ ⟨"1", NodeType.GSCC⟩
    (Edge.mk ⟨"0", NodeType.GSCC⟩ ⟨"1", NodeType.GSCC⟩ true) rfl rfl

/-- What one successful run of the sampling loop does to the stored
state: the parameter fields are untouched, and exactly
`num_edges - num_edge` further edges are appended to `st.edges`. -/
theorem EdgeSampler.sampleEdgesLoop_spec (rs : RandSource) (ifuel : Nat) :
    ∀ fuel st edges reciproc num_edge t st2 t2,
      EdgeSampler.sampleEdgesLoop rs ifuel fuel st edges reciproc num_edge t
        = some (st2, t2) →
      st2.edges.length = st.edges.length + (st.num_edges - num_edge).toNat ∧
      st2.sampled_nodes = st.sampled_nodes ∧ st2.num_edges = st.num_edges ∧
      st2.reciprocity = st.reciprocity ∧ st2.verbose = st.verbose := by
  intro fuel
  induction fuel with
  | zero =>
    intro st edges reciproc num_edge t st2 t2 h
    simp [EdgeSampler.sampleEdgesLoop] at h
  | succ n ih =>
    intro st edges reciproc num_edge t st2 t2 h
    rw [EdgeSampler.sampleEdgesLoop] at h
    split at h
    next hlt =>
      cases hc : EdgeSampler.candidate rs ifuel st reciproc t with
      | none => exact Option.noConfusion (by simp only [hc] at h; exact h)
      | some p =>
        obtain ⟨edge, t3⟩ := p
        simp only [hc] at h
        split at h
        next hkey => exact ih _ _ _ _ _ _ _ h
        next hkey =>
          obtain ⟨h1, h2, h3, h4, h5⟩ := ih _ _ _ _ _ _ _ h
          simp at h1 h2 h3 h4 h5
          refine ⟨?_, h2, h3, h4, h5⟩
          omega
    next hlt =>
      obtain ⟨rfl, rfl⟩ : st = st2 ∧ t = t2 := by
        simpa using h
      refine ⟨?_, rfl, rfl, rfl, rfl⟩
      omega

/-- Key-uniqueness invariant of the sampling loop: if the keys of the
stored edges are distinct and all recorded in the local seen-key set,
they remain distinct in the final state. -/
theorem EdgeSampler.sampleEdgesLoop_nodup (rs : RandSource) (ifuel : Nat) :
    ∀ fuel st edges reciproc num_edge t st2 t2,
      EdgeSampler.sampleEdgesLoop rs ifuel fuel st edges reciproc num_edge t
        = some (st2, t2) →
      (st.edges.map Edge.getKey).Nodup →
      (∀ e ∈ st.edges, e.getKey ∈ edges) →
      (st2.edges.map Edge.getKey).Nodup := by
  intro fuel
  induction fuel with
  | zero =>
    intro st edges reciproc num_edge t st2 t2 h _ _
    simp [EdgeSampler.sampleEdgesLoop] at h
  | succ n ih =>
    intro st edges reciproc num_edge t st2 t2 h hnd hmem
    rw [EdgeSampler.sampleEdgesLoop] at h
    split at h
    next hlt =>
      cases hc : EdgeSampler.candidate rs ifuel st reciproc t with
      | none => exact Option.noConfusion (by simp only [hc] at h; exact h)
      | some p =>
        obtain ⟨edge, t3⟩ := p
        simp only [hc] at h
        split at h
        next hkey => exact ih _ _ _ _ _ _ _ h hnd hmem
        next hkey =>
          apply ih _ _ _ _ _ _ _ h
          · rw [List.map_append]
            rw [List.nodup_append]
            refine ⟨hnd, by simp, ?_⟩
            intro k hk
            simp only [List.mem_map] at hk
            obtain ⟨e, he, rfl⟩ := hk
            simp only [List.map_cons, List.map_nil, List.mem_singleton]
            intro hkeq
            exact hkey (hkeq ▸ hmem e he)
          · intro e he
            simp only [List.mem_append, List.mem_singleton] at he
            rcases he with he | rfl
            · exact List.mem_cons_of_mem _ (hmem e he)
            · exact List.mem_cons_self _ _
    next hlt =>
      obtain ⟨rfl, rfl⟩ : st = st2 ∧ t = t2 := by
        simpa using h
      exact hnd

/-- The first `for` loop of `getReciprocityRate` builds exactly the
finite set of distinct keys of the samples. -/
theorem foldl_insert_eq_toFinset (l : List Edge) (s : Finset String) :
    l.foldl (fun acc x => insert x.getKey acc) s
      = s ∪ (l.map Edge.getKey).toFinset := by
  induction l generalizing s with
  | nil => simp
  | cons a l ih =>
    simp only [List.foldl_cons, List.map_cons, List.toFinset_cons, ih]
    ext k
    simp only [Finset.mem_union, Finset.mem_insert]
    tauto

/-- The key set of a nonempty sample list is nonempty. -/
theorem keySet_card_ne_zero (samples : List Edge) (h : samples ≠ []) :
    (samples.foldl (fun acc x => insert x.getKey acc) (∅ : Finset String)).card ≠ 0 := by
  rw [foldl_insert_eq_toFinset, Finset.empty_union]
  cases samples with
  | nil => exact absurd rfl h
  | cons a l =>
    exact Finset.card_ne_zero_of_mem
      (by simp only [List.map_cons, List.toFinset_cons, Finset.mem_insert]; exact Or.inl rfl)

/-- Claim C6: any accepted-edge collection a fresh sampler's
`sampleEdges` run returns has pairwise-distinct identity keys. -/
theorem C6_sampleEdges_keys_nodup (rs : RandSource) (ifuel fuel : Nat)
    (st st2 : EdgeSampler) (t t2 : Nat) (hfresh : st.edges = [])
    (h : EdgeSampler.sampleEdges rs ifuel fuel st t = some (st2, t2)) :
    (st2.edges.map Edge.getKey).Nodup :=
  EdgeSampler.sampleEdgesLoop_nodup rs ifuel fuel st [] [] 0 t st2 t2 h
    (by simp [hfresh]) (by simp [hfresh])

unseal Rat.mul Rat.inv Rat.add Rat.sub in
theorem C6_sampleEdges_keys_nodup_witness :
    (st1val.edges.map Edge.getKey).Nodup :=
  C6_sampleEdges_keys_nodup rsW 5 5 stW st1val 0 4 rfl (by decide)

unseal Rat.mul Rat.inv Rat.add Rat.sub in
/-- Claim C1, counterexample: on the completed sampler `st1val` (target
2, both edges already accepted), a second `sampleEdges` call does not
return the collection unchanged — the loop restarts with a zero counter
and an empty local key set, appending the same two edges again. -/
theorem C1_counterexample :
    EdgeSampler.sampleEdges rsW 5 5 stW 0 = some (st1val, 4) ∧
    EdgeSampler.sampleEdges rsW 5 5 st1val 4 = some (st2val, 8) ∧
    st2val.edges ≠ st1val.edges :=
  ⟨by decide, by decide, by decide⟩

/-- Claim C1, amended: `sampleEdges` is not idempotent post-completion;
every successful call appends exactly `num_edges` further edges to the
stored collection (and leaves the target unchanged), so a repeated call
grows the returned list by the target count instead of returning it
unchanged. -/
theorem C1_sampleEdges_appends (rs : RandSource) (ifuel fuel : Nat)
    (st st2 : EdgeSampler) (t t2 : Nat)
    (h : EdgeSampler.sampleEdges rs ifuel fuel st t = some (st2, t2)) :
    st2.edges.length = st.edges.length + st.num_edges.toNat ∧
    st2.num_edges = st.num_edges := by
  obtain ⟨h1, _, h3, _, _⟩ :=
    EdgeSampler.sampleEdgesLoop_spec rs ifuel fuel st [] [] 0 t st2 t2 h
  exact ⟨by simpa using h1, h3⟩

unseal Rat.mul Rat.inv Rat.add Rat.sub in
theorem C1_sampleEdges_appends_witness :
    st2val.edges.length = st1val.edges.length + st1val.num_edges.toNat ∧
    st2val.num_edges = st1val.num_edges :=
  C1_sampleEdges_appends rsW 5 5 st1val st2val 4 8 (by decide)

unseal Rat.mul Rat.inv Rat.add Rat.sub in
/-- Claim C7: for every construction the target edge count is
`floor(connectivity * n * (n - 1))` (truncation equals floor since the
product is nonnegative for `0 ≤ connectivity`); in the concrete
`nodeCount = 10`, `connectivity = 0.3`, `reciprocity = 0` scenario the
target is 27 and `sampleEdges` returns exactly 27 distinct edges. -/
theorem C7_targetEdgeCount (n : Nat) (c ρ : ℚ) (rs : RandSource) (t : Nat)
    (v : Bool) (hc : 0 ≤ c) :
    (EdgeSampler.init n c ρ rs t v).1.num_edges = ⌊c * n * ((n : ℚ) - 1)⌋ ∧
    (EdgeSampler.init 10 (3/10) 0 rsX 0).1.num_edges = 27 ∧
    ∃ p, EdgeSampler.sampleEdges rsX 40 40 (EdgeSampler.init 10 (3/10) 0 rsX 0).1
        (EdgeSampler.init 10 (3/10) 0 rsX 0).2 = some p ∧
      p.1.edges.length = 27 ∧ (p.1.edges.map Edge.getKey).Nodup := by
  refine ⟨?_, by decide, ?_⟩
  · have hnn : 0 ≤ c * n * ((n : ℚ) - 1) := by
      cases n with
      | zero => simp
      | succ m =>
        have h1 : (1 : ℚ) ≤ ((m + 1 : ℕ) : ℚ) := by exact_mod_cast Nat.succ_le_succ (Nat.zero_le m)
        have h2 : (0 : ℚ) ≤ ((m + 1 : ℕ) : ℚ) := by positivity
        exact mul_nonneg (mul_nonneg hc h2) (by linarith)
    simp [EdgeSampler.init, pyInt, hnn]
  · have h1 : (EdgeSampler.sampleEdges rsX 40 40 (EdgeSampler.init 10 (3/10) 0 rsX 0).1
        (EdgeSampler.init 10 (3/10) 0 rsX 0).2).map
        (fun p => (p.1.edges.length, decide ((p.1.edges.map Edge.getKey).Nodup)))
        = some (27, true) := by decide
    obtain ⟨p, hp, he⟩ := Option.map_eq_some'.mp h1
    exact ⟨p, hp, congrArg Prod.fst he, of_decide_eq_true (congrArg Prod.snd he)⟩

unseal Rat.mul Rat.inv Rat.add Rat.sub in
theorem C7_targetEdgeCount_witness :
    (EdgeSampler.init 10 (3/10) 0 rsX 0 false).1.num_edges
        = ⌊(3/10 : ℚ) * (10 : ℕ) * (((10 : ℕ) : ℚ) - 1)⌋ ∧
    (EdgeSampler.init 10 (3/10) 0 rsX 0).1.num_edges = 27 ∧
    ∃ p, EdgeSampler.sampleEdges rsX 40 40 (EdgeSampler.init 10 (3/10) 0 rsX 0).1
        (EdgeSampler.init 10 (3/10) 0 rsX 0).2 = some p ∧
      p.1.edges.length = 27 ∧ (p.1.edges.map Edge.getKey).Nodup :=
  C7_targetEdgeCount 10 (3/10) 0 rsX 0 false (by norm_num)

unseal Rat.mul Rat.inv Rat.add Rat.sub in
/-- Claim C8, counterexample: constructing a sampler with `nodeCount = 0`,
`connectivityDensity = 5` and `reciprocityRate = -1` — all outside their
documented ranges — does not fail: it silently produces an ordinary
sampler state. -/
theorem C8_counterexample :
    EdgeSampler.init 0 5 (-1) rsW 0 =
      ({ sampled_nodes := [], num_edges := 0, reciprocity := -1,
         edges := [], verbose := false }, 0) := by decide

/-- Claim C8, amended: the constructor performs no validation at all —
for every parameter combination, valid or not, it returns a normal
state recording the requested parameters, and never signals an error. -/
theorem C8_init_accepts_all_params (node_count : Nat)
    (connectivity reciprocity : ℚ) (rs : RandSource) (t : Nat) (v : Bool) :
    (EdgeSampler.init node_count connectivity reciprocity rs t v).1.sampled_nodes.length
        = node_count ∧
    (EdgeSampler.init node_count connectivity reciprocity rs t v).1.reciprocity
        = reciprocity ∧
    (EdgeSampler.init node_count connectivity reciprocity rs t v).1.edges = [] ∧
    (EdgeSampler.init node_count connectivity reciprocity rs t v).1.num_edges
        = pyInt (connectivity * node_count * ((node_count : ℚ) - 1)) := by
  simp [EdgeSampler.init]

/-- Claim C9: on a nonempty edge collection the reciprocity-rate
statistic equals the spec formula — the number of edges whose reverse
key lies in the distinct-key set `K`, divided by `|K|`, times 100. -/
theorem C9_reciprocity_rate (samples : List Edge) (h : samples ≠ []) :
    InterstingStats.getReciprocityRate samples = some (specReciprocityRate samples) := by
  simp only [InterstingStats.getReciprocityRate, specReciprocityRate]
  rw [if_neg (keySet_card_ne_zero samples h)]
  rw [foldl_insert_eq_toFinset, Finset.empty_union]
  rw [List.countP_eq_length_filter]
  congr 1
  ring

theorem C9_reciprocity_rate_witness :
    InterstingStats.getReciprocityRate [e01, e10]
      = some (specReciprocityRate [e01, e10]) :=
  C9_reciprocity_rate [e01, e10] (by simp)

/-- Claim C10: the reciprocity-rate statistic on an empty edge
collection divides by the empty key set's size and fails rather than
reporting a rate; on any nonempty collection it reports one. -/
theorem C10_empty_rate_undefined :
    InterstingStats.getReciprocityRate [] = none ∧
    ∀ samples : List Edge, samples ≠ [] →
      (InterstingStats.getReciprocityRate samples).isSome := by
  constructor
  · rfl
  · intro samples hne
    simp only [InterstingStats.getReciprocityRate]
    rw [if_neg (keySet_card_ne_zero samples hne)]
    rfl

theorem C10_empty_rate_undefined_witness :
    (InterstingStats.getReciprocityRate [e01]).isSome :=
  C10_empty_rate_undefined.2 [e01] (by simp)
